import Mathlib

/-!
Verification development for a layered Go HTTP service (handler → service →
repository → SQL store) exposing user create/read operations.

The embedding follows the source packages:
* `internal/platform/database/errors.go` — driver error classification
* `internal/repositories/user_repository.go` — SQL repository
* `internal/core/services/user_service.go` — business-rule service
* `internal/handlers/user_handler.go` — HTTP handlers

Go `error` values are sentinel values compared with `==` / `errors.Is`
(no wrapping occurs anywhere in this codebase), so they are embedded as a
single inductive type `GoError` with one constructor per distinct sentinel,
plus constructors for driver-level pg errors and for generic `errors.New`
values. Time (`time.Time`) is embedded as `Nat`, with `0` playing the role
of the zero value (`IsZero`).
-/

/-- The distinct Go `error` values that flow through the system.
`svc*` are the sentinels of package `services`, `ports*` those of package
`ports`, `pgNoRows` is `pgx.ErrNoRows` (= `database.ErrNoRows`),
`pgErrCode c` is a `pgconn.PgError` carrying SQLSTATE code `c`, and
`other m` stands for any other `errors.New`-style value. -/
inductive GoError where
  | svcInvalidInput
  | svcUserNotFound
  | svcDuplicateEmail
  | portsNotFound
  | portsDuplicateEmail
  | pgNoRows
  | pgErrCode (code : String)
  | other (msg : String)
  deriving DecidableEq, Repr

/-- `database.UniqueViolationCode` from `errors.go`. -/
def UniqueViolationCode : String := "23505"

/-- `database.IsUniqueViolation`: true exactly when the error is a
`pgconn.PgError` whose code is the unique-violation SQLSTATE. -/
def IsUniqueViolation (err : GoError) : Bool :=
  match err with
  | .pgErrCode code => code = UniqueViolationCode
  | _ => false

/-- `database.IsNoRowsError`: `errors.Is(err, database.ErrNoRows)`; with
unwrapped sentinels this is equality with `pgx.ErrNoRows`. -/
def IsNoRowsError (err : GoError) : Bool :=
  err = .pgNoRows

/-- Modelled from the spec: the domain entity `User`
(package `internal/core/domain` is not among the provided sources).
Per the spec's data model: identifier (string), email (string), password
(opaque string), created-at/updated-at timestamps. Field usage matches the
repository, service and handler sources. -/
structure User where
  id : String
  email : String
  password : String
  createdAt : Nat
  updatedAt : Nat
  deriving DecidableEq, Repr

/-- Modelled from the spec: the `users` table state. The migration SQL files
are not among the provided sources; per the spec the table has columns
(id, email unique, password, created_at, updated_at) with uniqueness
enforced only on email. Rows are kept in insertion order. -/
abbrev UsersTable : Type := List User

/-- Modelled from the spec: executing the repository's INSERT against the
`users` table. The only constraint is email uniqueness, so the driver
reports a `pgconn.PgError` with the unique-violation code exactly when a
row with the same email already exists; otherwise the row is appended. -/
def usersInsert (db : UsersTable) (u : User) : Except GoError UsersTable :=
  if db.any (fun r => r.email = u.email) then
    .error (.pgErrCode UniqueViolationCode)
  else
    .ok (db ++ [u])

/-- Modelled from the spec: executing `SELECT ... WHERE id = $1` through
`QueryRow(...).Scan`: the first matching row in table order, or
`pgx.ErrNoRows` when none matches. -/
def usersSelectById (db : UsersTable) (id : String) : Except GoError User :=
  match db.find? (fun r => r.id = id) with
  | some u => .ok u
  | none => .error .pgNoRows

/-- Modelled from the spec: executing `SELECT ... WHERE email = $1` through
`QueryRow(...).Scan`. -/
def usersSelectByEmail (db : UsersTable) (email : String) : Except GoError User :=
  match db.find? (fun r => r.email = email) with
  | some u => .ok u
  | none => .error .pgNoRows

/-- Modelled from the spec: executing
`SELECT EXISTS(SELECT 1 FROM users WHERE email = $1)`; always yields a row
holding a boolean. -/
def usersExistsByEmail (db : UsersTable) (email : String) : Bool :=
  db.any (fun r => r.email = email)

/-! ### Repository error mapping (`user_repository.go`)

Each repository method's treatment of the driver result, as a function of
that result. These mirror the `if err != nil { ... }` blocks verbatim and
are used both standalone (to settle how each operation maps arbitrary
driver errors) and composed with the table model above. -/

/-- `UserRepository.Create`, lines 47–53: on a driver error, a unique
violation becomes `ports.ErrDuplicateEmail`; any other error is returned
unchanged. The scanned value is the RETURNING id. -/
def createFromDriver (res : Except GoError String) : Except GoError Unit :=
  match res with
  | .ok _ => .ok ()
  | .error err =>
      if IsUniqueViolation err then .error .portsDuplicateEmail
      else .error err

/-- `UserRepository.GetByID`, lines 76–81: `errors.Is(err, database.ErrNoRows)`
becomes `ports.ErrNotFound`; any other error is returned unchanged. -/
def getByIdFromDriver (res : Except GoError User) : Except GoError User :=
  match res with
  | .ok u => .ok u
  | .error err =>
      if IsNoRowsError err then .error .portsNotFound
      else .error err

/-- `UserRepository.GetByEmail`, lines 174–179: same mapping as `GetByID`. -/
def getByEmailFromDriver (res : Except GoError User) : Except GoError User :=
  match res with
  | .ok u => .ok u
  | .error err =>
      if IsNoRowsError err then .error .portsNotFound
      else .error err

/-- `UserRepository.ExistsByEmail`, lines 93–96: every driver error is
returned unchanged; no mapping is performed. -/
def existsByEmailFromDriver (res : Except GoError Bool) : Except GoError Bool :=
  res

/-- `UserRepository.Update`, lines 120–132: on an exec error, a unique
violation becomes `ports.ErrDuplicateEmail`, otherwise the error passes
through; on success, zero rows affected becomes `ports.ErrNotFound`. -/
def updateFromDriver (res : Except GoError Nat) : Except GoError Unit :=
  match res with
  | .error err =>
      if IsUniqueViolation err then .error .portsDuplicateEmail
      else .error err
  | .ok rowsAffected =>
      if rowsAffected = 0 then .error .portsNotFound
      else .ok ()

/-- `UserRepository.Delete`, lines 141–151: every exec error passes through
unchanged; on success, zero rows affected becomes `ports.ErrNotFound`. -/
def deleteFromDriver (res : Except GoError Nat) : Except GoError Unit :=
  match res with
  | .error err => .error err
  | .ok rowsAffected =>
      if rowsAffected = 0 then .error .portsNotFound
      else .ok ()

/-! ### Stateful repository operations over the modelled table -/

/-- `UserRepository.Create` lines 30–37: timestamps are defaulted to `now`
independently, each only when still at the zero value. -/
def setTimestamps (now : Nat) (user : User) : User :=
  { user with
    createdAt := if user.createdAt = 0 then now else user.createdAt,
    updatedAt := if user.updatedAt = 0 then now else user.updatedAt }

/-- `UserRepository.Create`: defaults zero timestamps to `now`, issues the
INSERT, maps a unique violation to `ports.ErrDuplicateEmail` and passes
other driver errors through. On success the caller's record (mutated in
place in Go, returned here) carries the stored field values; the RETURNING
id scanned back equals the inserted id. Returns the resulting table state
alongside the Go result. -/
def UserRepository.Create (db : UsersTable) (now : Nat) (user : User) :
    UsersTable × Except GoError User :=
  let u := setTimestamps now user
  match usersInsert db u with
  | .ok db2 => (db2, .ok u)
  | .error err =>
      if IsUniqueViolation err then (db, .error .portsDuplicateEmail)
      else (db, .error err)

/-- `UserRepository.GetByID` composed with the modelled SELECT. -/
def UserRepository.GetByID (db : UsersTable) (id : String) : Except GoError User :=
  getByIdFromDriver (usersSelectById db id)

/-- `UserRepository.GetByEmail` composed with the modelled SELECT. -/
def UserRepository.GetByEmail (db : UsersTable) (email : String) : Except GoError User :=
  getByEmailFromDriver (usersSelectByEmail db email)

/-- `UserRepository.ExistsByEmail` composed with the modelled SELECT EXISTS,
which always returns a boolean row. -/
def UserRepository.ExistsByEmail (db : UsersTable) (email : String) :
    Except GoError Bool :=
  existsByEmailFromDriver (.ok (usersExistsByEmail db email))

/-! ### Service layer (`user_service.go`)

`UserService` holds the repository behind the `ports.UserRepository`
interface, so `CreateUser` is embedded parametrically over the two interface
methods it uses; the concrete repository above is one instantiation.
Repository state is threaded explicitly: `existsByEmail` issues a SELECT and
cannot change the store, `create` returns the successor state alongside the
Go result (the error case keeps the state it was given). -/

structure UserRepositoryPort (σ : Type) where
  existsByEmail : σ → String → Except GoError Bool
  create : σ → User → σ × Except GoError User

/-- `UserService.validateUser`: returns an `errors.New` value when the email
is empty, nil otherwise. -/
def UserService.validateUser (user : User) : Except GoError Unit :=
  if user.email = "" then .error (.other "email is required")
  else .ok ()

/-- `UserService.CreateUser` over the repository interface: a validation
failure becomes `services.ErrInvalidInput`; an existence-check error is
returned as-is; an existing email becomes `services.ErrDuplicateEmail`;
otherwise the result of the repository's `Create` is returned as-is. -/
def createUserWithPort {σ : Type} (port : UserRepositoryPort σ) (s : σ)
    (user : User) : σ × Except GoError User :=
  match UserService.validateUser user with
  | .error _ => (s, .error .svcInvalidInput)
  | .ok () =>
      match port.existsByEmail s user.email with
      | .error err => (s, .error err)
      | .ok true => (s, .error .svcDuplicateEmail)
      | .ok false => port.create s user

/-- The concrete repository (`repositories.UserRepository`) seen through the
`ports.UserRepository` interface, as wired in `main`. -/
def concretePort (now : Nat) : UserRepositoryPort UsersTable where
  existsByEmail := UserRepository.ExistsByEmail
  create := fun db user => UserRepository.Create db now user

/-- `UserService.CreateUser` instantiated with the concrete repository. -/
def UserService.CreateUser (db : UsersTable) (now : Nat) (user : User) :
    UsersTable × Except GoError User :=
  createUserWithPort (concretePort now) db user

/-- `UserService.GetUser`: rejects an empty id with
`services.ErrInvalidInput`; maps `ports.ErrNotFound` (via `errors.Is`) to
`services.ErrUserNotFound`; passes other errors through. -/
def UserService.GetUser (db : UsersTable) (id : String) : Except GoError User :=
  if id = "" then .error .svcInvalidInput
  else
    match UserRepository.GetByID db id with
    | .error err =>
        if err = .portsNotFound then .error .svcUserNotFound
        else .error err
    | .ok user => .ok user

/-! ### Instrumented service

`UserService.CreateUserTr` is `UserService.CreateUser` with the concrete
repository, additionally recording which repository operations were issued,
in order. It is used to settle claims about which store operations a request
performs; `createUserTr_erase` below proves it erases to
`UserService.CreateUser`. -/

/-- A repository operation issued by the service against the store. -/
inductive RepoCall where
  | existsByEmail (email : String)
  | create (user : User)
  deriving DecidableEq, Repr

/-- `UserService.CreateUser` over the concrete repository, instrumented with
the list of repository calls issued. -/
def UserService.CreateUserTr (db : UsersTable) (now : Nat) (user : User) :
    (UsersTable × List RepoCall) × Except GoError User :=
  match UserService.validateUser user with
  | .error _ => ((db, []), .error .svcInvalidInput)
  | .ok () =>
      match UserRepository.ExistsByEmail db user.email with
      | .error err => ((db, [.existsByEmail user.email]), .error err)
      | .ok true => ((db, [.existsByEmail user.email]), .error .svcDuplicateEmail)
      | .ok false =>
          let res := UserRepository.Create db now user
          ((res.1, [.existsByEmail user.email, .create user]), res.2)

/-! ### Handler layer (`user_handler.go`)

The handlers' error switches are embedded as functions from the service
error to the HTTP status they render; the full handlers compose the service
call with those switches. A handler's outcome is the rendered status plus
the JSON-rendered user, when one is rendered. -/

/-- The `switch err` of `UserHandler.createUser`, lines 43–53:
`services.ErrInvalidInput` → 400, `services.ErrDuplicateEmail` → 409,
anything else → 500. -/
def createUserErrStatus (err : GoError) : Nat :=
  match err with
  | .svcInvalidInput => 400
  | .svcDuplicateEmail => 409
  | _ => 500

/-- The `switch err` of `UserHandler.getUser`, lines 72–79:
`services.ErrUserNotFound` → 404, anything else → 500. -/
def getUserErrStatus (err : GoError) : Nat :=
  match err with
  | .svcUserNotFound => 404
  | _ => 500

/-- `UserHandler.createUser` on a successfully decoded body: calls the
service; on error renders the switch's status with no user; on success
renders 201 with the (timestamp-filled) user. Returns the resulting table
state alongside the response. -/
def UserHandler.createUser (db : UsersTable) (now : Nat) (user : User) :
    UsersTable × Nat × Option User :=
  match UserService.CreateUser db now user with
  | (db2, .error err) => (db2, createUserErrStatus err, none)
  | (db2, .ok u) => (db2, 201, some u)

/-- `UserHandler.getUser`: an empty route parameter renders 400 before the
service is consulted; a service error renders the switch's status; success
renders the user with the default 200 status. -/
def UserHandler.getUser (db : UsersTable) (userID : String) :
    Nat × Option User :=
  if userID = "" then (400, none)
  else
    match UserService.GetUser db userID with
    | .error err => (getUserErrStatus err, none)
    | .ok user => (200, some user)

/-- The concrete repository observed across an interleaving: requests share
the `users` table, so another request's INSERT may land between this
request's existence check and its create. The state is the pair of table
snapshots seen by the two calls: `existsByEmail` runs against the first
snapshot, `create` against the second. Each component behaves exactly as
`repositories.UserRepository` does on its snapshot. -/
def snapshotPort (now : Nat) : UserRepositoryPort (UsersTable × UsersTable) where
  existsByEmail := fun s email => UserRepository.ExistsByEmail s.1 email
  create := fun s user =>
    let res := UserRepository.Create s.2 now user
    ((s.1, res.1), res.2)

/-! ## Theorems -/

/-- Helper: `UserRepository.Create` on a table without the user's email
appends the timestamp-filled record and returns it. -/
lemma setTimestamps_email (now : Nat) (u : User) :
    (setTimestamps now u).email = u.email := rfl

/-- Helper: `UserRepository.Create` on a table without the user's email
appends the timestamp-filled record and returns it. -/
lemma create_ok_iff (db : UsersTable) (now : Nat) (u : User)
    (hc : db.any (fun x => x.email = u.email) = false) :
    UserRepository.Create db now u =
      (db ++ [setTimestamps now u], Except.ok (setTimestamps now u)) := by
  have hnc : ¬(db.any (fun x => x.email = (setTimestamps now u).email) = true) := by
    rw [setTimestamps_email, hc]; exact Bool.false_ne_true
  dsimp only [UserRepository.Create, usersInsert]
  rw [if_neg hnc]

/-- Helper: inversion of a successful `UserRepository.Create`. -/
lemma create_eq_ok (db : UsersTable) (now : Nat) (u : User) (db2 : UsersTable)
    (r : User) (hC : UserRepository.Create db now u = (db2, Except.ok r)) :
    r = setTimestamps now u ∧ db2 = db ++ [r] ∧
    db.any (fun x => x.email = u.email) = false := by
  by_cases hc : db.any (fun x => x.email = u.email) = true
  · exfalso
    dsimp only [UserRepository.Create, usersInsert] at hC
    rw [setTimestamps_email] at hC
    rw [if_pos hc] at hC
    simp [IsUniqueViolation, UniqueViolationCode] at hC
  · have hc2 : db.any (fun x => x.email = u.email) = false :=
      eq_false_of_ne_true hc
    rw [create_ok_iff db now u hc2] at hC
    simp only [Prod.mk.injEq, Except.ok.injEq] at hC
    obtain ⟨h1, h2⟩ := hC
    exact ⟨h2.symm, by rw [← h1, h2], hc2⟩

/-- Helper: `UserService.CreateUser` on a valid, fresh email delegates to the
repository's create and succeeds. -/
lemma createUser_fresh (db : UsersTable) (now : Nat) (u : User)
    (he : u.email ≠ "") (hf : db.any (fun x => x.email = u.email) = false) :
    UserService.CreateUser db now u =
      (db ++ [setTimestamps now u], Except.ok (setTimestamps now u)) := by
  unfold UserService.CreateUser createUserWithPort concretePort
    UserService.validateUser UserRepository.ExistsByEmail
    existsByEmailFromDriver usersExistsByEmail
  simp [he, hf, create_ok_iff db now u hf]

/-- C2, as stated, is false: the get endpoint's switch sends the
invalid-input and duplicate-email kinds to 500 (not 400/409), and the create
endpoint's switch sends the user-not-found kind to 500 (not 404). -/
theorem c2_counterexample :
    getUserErrStatus GoError.svcInvalidInput = 500 ∧
    getUserErrStatus GoError.svcDuplicateEmail = 500 ∧
    createUserErrStatus GoError.svcUserNotFound = 500 ∧
    (500 : Nat) ≠ 400 ∧ (500 : Nat) ≠ 409 ∧ (500 : Nat) ≠ 404 := by
  decide

/-- C2 (amended): the create endpoint maps invalid-input to 400,
duplicate-email to 409 and every other service error (including
user-not-found) to 500; the get endpoint maps user-not-found to 404 and
every other service error (including invalid-input and duplicate-email)
to 500. -/
theorem c2_handler_error_mapping (err : GoError) :
    createUserErrStatus GoError.svcInvalidInput = 400 ∧
    createUserErrStatus GoError.svcDuplicateEmail = 409 ∧
    (err ≠ GoError.svcInvalidInput → err ≠ GoError.svcDuplicateEmail →
      createUserErrStatus err = 500) ∧
    getUserErrStatus GoError.svcUserNotFound = 404 ∧
    (err ≠ GoError.svcUserNotFound → getUserErrStatus err = 500) := by
  refine ⟨rfl, rfl, ?_, rfl, ?_⟩
  · intro h1 h2
    cases err <;> simp_all [createUserErrStatus]
  · intro h
    cases err <;> simp_all [getUserErrStatus]

/-- C2 witness: the amended mapping at the repository pass-through error
`ports.ErrNotFound`, which neither switch recognizes. -/
theorem c2_handler_error_mapping_witness :
    createUserErrStatus GoError.portsNotFound = 500 ∧
    getUserErrStatus GoError.portsNotFound = 500 :=
  ⟨(c2_handler_error_mapping GoError.portsNotFound).2.2.1
      (by decide) (by decide),
   (c2_handler_error_mapping GoError.portsNotFound).2.2.2.2 (by decide)⟩

/-- C3, as stated, is false: `ExistsByEmail` performs no error mapping at
all, returning a driver no-rows error and a unique-violation error
unchanged; `Create` likewise returns a driver no-rows error unchanged, and
`Delete` returns a unique-violation error unchanged. -/
theorem c3_counterexample :
    existsByEmailFromDriver (Except.error GoError.pgNoRows) =
      Except.error GoError.pgNoRows ∧
    (Except.error GoError.pgNoRows : Except GoError Bool) ≠
      Except.error GoError.portsNotFound ∧
    existsByEmailFromDriver (Except.error (GoError.pgErrCode "23505")) =
      Except.error (GoError.pgErrCode "23505") ∧
    createFromDriver (Except.error GoError.pgNoRows) =
      Except.error GoError.pgNoRows ∧
    deleteFromDriver (Except.error (GoError.pgErrCode "23505")) =
      Except.error (GoError.pgErrCode "23505") ∧
    (Except.error (GoError.pgErrCode "23505") : Except GoError Unit) ≠
      Except.error GoError.portsDuplicateEmail := by
  refine ⟨rfl, by simp, rfl, rfl, rfl, by simp⟩

/-- C3 (amended): `GetByID` and `GetByEmail` map a driver no-rows error to
`ports.ErrNotFound`; `Create` and `Update` map a unique-constraint violation
to `ports.ErrDuplicateEmail`; `Update` and `Delete` map a zero-rows-affected
result to `ports.ErrNotFound`; `ExistsByEmail` maps nothing; every other
driver error is returned unchanged by every operation. -/
theorem c3_repo_error_mapping (err : GoError)
    (huv : IsUniqueViolation err = false) (hnr : err ≠ GoError.pgNoRows) :
    getByIdFromDriver (Except.error GoError.pgNoRows) =
      Except.error GoError.portsNotFound ∧
    getByEmailFromDriver (Except.error GoError.pgNoRows) =
      Except.error GoError.portsNotFound ∧
    createFromDriver (Except.error (GoError.pgErrCode UniqueViolationCode)) =
      Except.error GoError.portsDuplicateEmail ∧
    updateFromDriver (Except.error (GoError.pgErrCode UniqueViolationCode)) =
      Except.error GoError.portsDuplicateEmail ∧
    updateFromDriver (Except.ok 0) = Except.error GoError.portsNotFound ∧
    deleteFromDriver (Except.ok 0) = Except.error GoError.portsNotFound ∧
    (∀ res : Except GoError Bool, existsByEmailFromDriver res = res) ∧
    createFromDriver (Except.error err) = Except.error err ∧
    getByIdFromDriver (Except.error err) = Except.error err ∧
    getByEmailFromDriver (Except.error err) = Except.error err ∧
    updateFromDriver (Except.error err) = Except.error err ∧
    deleteFromDriver (Except.error err) = Except.error err := by
  refine ⟨rfl, rfl, rfl, rfl, rfl, rfl, fun res => rfl, ?_, ?_, ?_, ?_, rfl⟩
  · simp [createFromDriver, huv]
  · simp [getByIdFromDriver, IsNoRowsError, hnr]
  · simp [getByEmailFromDriver, IsNoRowsError, hnr]
  · simp [updateFromDriver, huv]

/-- C3 witness: the amended mapping at a generic driver error (a fabricated
io failure), which every operation passes through unchanged. -/
theorem c3_repo_error_mapping_witness :
    createFromDriver (Except.error (GoError.other "io failure")) =
      Except.error (GoError.other "io failure") ∧
    getByIdFromDriver (Except.error (GoError.other "io failure")) =
      Except.error (GoError.other "io failure") :=
  ⟨(c3_repo_error_mapping (GoError.other "io failure") (by decide)
      (by decide)).2.2.2.2.2.2.2.1,
   (c3_repo_error_mapping (GoError.other "io failure") (by decide)
      (by decide)).2.2.2.2.2.2.2.2.2.1⟩

/-- C4, as stated, is false: ids are not constrained by the modelled table
(only emails are unique), so creating a user whose id duplicates an existing
row succeeds, and the subsequent `GetByID` returns the earlier row, whose
fields differ from the values stored by `Create`. -/
theorem c4_counterexample :
    (UserRepository.Create [⟨"a", "x", "p", 5, 5⟩] 7 ⟨"a", "y", "q", 3, 4⟩).2 =
      Except.ok ⟨"a", "y", "q", 3, 4⟩ ∧
    UserRepository.GetByID
      (UserRepository.Create [⟨"a", "x", "p", 5, 5⟩] 7 ⟨"a", "y", "q", 3, 4⟩).1 "a" =
      Except.ok ⟨"a", "x", "p", 5, 5⟩ ∧
    (⟨"a", "x", "p", 5, 5⟩ : User) ≠ ⟨"a", "y", "q", 3, 4⟩ := by
  refine ⟨rfl, rfl, by decide⟩

/-- C4 (amended): for every user successfully created whose id was not
already present in the store, a subsequent `GetByID` with that user's id
succeeds and returns exactly the record stored by `Create`, timestamps
included; and the stored id equals the supplied one. -/
theorem c4_create_getById_roundtrip (db : UsersTable) (now : Nat) (u : User)
    (db2 : UsersTable) (r : User) (hid : ∀ x ∈ db, x.id ≠ u.id)
    (hC : UserRepository.Create db now u = (db2, Except.ok r)) :
    UserRepository.GetByID db2 r.id = Except.ok r ∧ r.id = u.id := by
  obtain ⟨hr, hdb, _⟩ := create_eq_ok db now u db2 r hC
  have hrid : r.id = u.id := by rw [hr]; rfl
  subst hdb
  refine ⟨?_, hrid⟩
  have hfind : db.find? (fun x => x.id = r.id) = none := by
    rw [List.find?_eq_none]
    intro x hx
    simp [hrid]
    exact hid x hx
  unfold UserRepository.GetByID usersSelectById getByIdFromDriver
  rw [List.find?_append, hfind]
  simp [List.find?]

/-- C4 witness: the amended round-trip at a store previously holding one
user with a different id. -/
theorem c4_create_getById_roundtrip_witness :
    UserRepository.GetByID
      (UserRepository.Create [⟨"b", "x", "p", 5, 5⟩] 1 ⟨"a", "e", "p", 0, 0⟩).1
      (⟨"a", "e", "p", 1, 1⟩ : User).id = Except.ok ⟨"a", "e", "p", 1, 1⟩ ∧
    (⟨"a", "e", "p", 1, 1⟩ : User).id = (⟨"a", "e", "p", 0, 0⟩ : User).id :=
  c4_create_getById_roundtrip [⟨"b", "x", "p", 5, 5⟩] 1 ⟨"a", "e", "p", 0, 0⟩
    [⟨"b", "x", "p", 5, 5⟩, ⟨"a", "e", "p", 1, 1⟩] ⟨"a", "e", "p", 1, 1⟩
    (by decide) rfl

/-- C5: a create request with a non-empty email that is not in the store
succeeds: the handler renders 201 with a record that keeps the supplied id
and carries non-zero created-at and updated-at timestamps, and the record is
appended to the store. (`now` is `time.Now()`, which is never the zero
time.) -/
theorem c5_create_fresh_email_201 (db : UsersTable) (now : Nat) (u : User)
    (hn : 0 < now) (he : u.email ≠ "") (hf : ∀ x ∈ db, x.email ≠ u.email) :
    ∃ r : User, UserHandler.createUser db now u = (db ++ [r], 201, some r) ∧
      r.id = u.id ∧ r.createdAt ≠ 0 ∧ r.updatedAt ≠ 0 := by
  have hany : db.any (fun x => x.email = u.email) = false := by
    rw [List.any_eq_false]
    intro x hx
    simpa using hf x hx
  refine ⟨setTimestamps now u, ?_, rfl, ?_, ?_⟩
  · simp [UserHandler.createUser, createUser_fresh db now u he hany]
  · simp only [setTimestamps]
    split <;> omega
  · simp only [setTimestamps]
    split <;> omega

/-- C5 witness: creating a user with a fresh email in an empty store. -/
theorem c5_create_fresh_email_201_witness :
    ∃ r : User,
      UserHandler.createUser [] 1 ⟨"i7", "a@b", "p", 0, 0⟩ =
        ([] ++ [r], 201, some r) ∧
      r.id = (⟨"i7", "a@b", "p", 0, 0⟩ : User).id ∧
      r.createdAt ≠ 0 ∧ r.updatedAt ≠ 0 :=
  c5_create_fresh_email_201 [] 1 ⟨"i7", "a@b", "p", 0, 0⟩
    (by decide) (by decide) (by decide)

/-- C6: a get request with a non-empty id matching no stored user makes the
service translate the repository's not-found error to
`services.ErrUserNotFound`, and the handler renders 404. -/
theorem c6_get_missing_user_404 (db : UsersTable) (id : String)
    (hne : id ≠ "") (hm : ∀ x ∈ db, x.id ≠ id) :
    UserService.GetUser db id = Except.error GoError.svcUserNotFound ∧
    UserHandler.getUser db id = (404, none) := by
  have hfind : db.find? (fun x => x.id = id) = none := by
    rw [List.find?_eq_none]
    intro x hx
    simpa using hm x hx
  have hsvc : UserService.GetUser db id = Except.error GoError.svcUserNotFound := by
    simp [UserService.GetUser, hne, UserRepository.GetByID, usersSelectById,
      hfind, getByIdFromDriver, IsNoRowsError]
  exact ⟨hsvc, by simp [UserHandler.getUser, hne, hsvc, getUserErrStatus]⟩

/-- C6 witness: fetching an absent id from a one-user store. -/
theorem c6_get_missing_user_404_witness :
    UserService.GetUser [⟨"b", "e", "p", 1, 1⟩] "z" =
      Except.error GoError.svcUserNotFound ∧
    UserHandler.getUser [⟨"b", "e", "p", 1, 1⟩] "z" = (404, none) :=
  c6_get_missing_user_404 [⟨"b", "e", "p", 1, 1⟩] "z" (by decide) (by decide)

/-- C7: a create request whose decoded user has an empty email is rejected
with `services.ErrInvalidInput` before any repository operation is issued
(the recorded call trace is empty), and the handler renders 400. -/
theorem c7_empty_email_400 (db : UsersTable) (now : Nat) (u : User)
    (he : u.email = "") :
    UserService.CreateUserTr db now u =
      ((db, []), Except.error GoError.svcInvalidInput) ∧
    UserHandler.createUser db now u = (db, 400, none) := by
  constructor
  · simp [UserService.CreateUserTr, UserService.validateUser, he]
  · simp [UserHandler.createUser, UserService.CreateUser, createUserWithPort,
      concretePort, UserService.validateUser, he, createUserErrStatus]

/-- C7 witness: a concrete empty-email request against an empty store. -/
theorem c7_empty_email_400_witness :
    UserService.CreateUserTr [] 1 ⟨"i", "", "p", 0, 0⟩ =
      (([], []), Except.error GoError.svcInvalidInput) ∧
    UserHandler.createUser [] 1 ⟨"i", "", "p", 0, 0⟩ = ([], 400, none) :=
  c7_empty_email_400 [] 1 ⟨"i", "", "p", 0, 0⟩ rfl

/-- C9: the repository's `Create` stores and returns the caller's created-at
and updated-at unchanged whenever they are non-zero, defaults each of them
to `now` independently only when it is at the zero value, leaves id, email
and password untouched, and appends exactly that record to the store. -/
theorem c9_create_timestamp_defaulting (db : UsersTable) (now : Nat)
    (u : User) (db2 : UsersTable) (r : User)
    (hC : UserRepository.Create db now u = (db2, Except.ok r)) :
    r.createdAt = (if u.createdAt = 0 then now else u.createdAt) ∧
    r.updatedAt = (if u.updatedAt = 0 then now else u.updatedAt) ∧
    r.id = u.id ∧ r.email = u.email ∧ r.password = u.password ∧
    db2 = db ++ [r] := by
  obtain ⟨hr, hdb, _⟩ := create_eq_ok db now u db2 r hC
  subst hr
  exact ⟨rfl, rfl, rfl, rfl, rfl, hdb⟩

/-- C9 witness: a caller-supplied non-zero updated-at is stored unchanged
while the zero created-at is defaulted to `now`, exercising the two
timestamps independently. -/
theorem c9_create_timestamp_defaulting_witness :
    (⟨"i", "e", "p", 3, 9⟩ : User).createdAt =
      (if (⟨"i", "e", "p", 0, 9⟩ : User).createdAt = 0 then 3
       else (⟨"i", "e", "p", 0, 9⟩ : User).createdAt) ∧
    (⟨"i", "e", "p", 3, 9⟩ : User).updatedAt =
      (if (⟨"i", "e", "p", 0, 9⟩ : User).updatedAt = 0 then 3
       else (⟨"i", "e", "p", 0, 9⟩ : User).updatedAt) ∧
    (⟨"i", "e", "p", 3, 9⟩ : User).id = (⟨"i", "e", "p", 0, 9⟩ : User).id ∧
    (⟨"i", "e", "p", 3, 9⟩ : User).email = (⟨"i", "e", "p", 0, 9⟩ : User).email ∧
    (⟨"i", "e", "p", 3, 9⟩ : User).password =
      (⟨"i", "e", "p", 0, 9⟩ : User).password ∧
    [⟨"i", "e", "p", 3, 9⟩] = [] ++ [(⟨"i", "e", "p", 3, 9⟩ : User)] :=
  c9_create_timestamp_defaulting [] 3 ⟨"i", "e", "p", 0, 9⟩
    [⟨"i", "e", "p", 3, 9⟩] ⟨"i", "e", "p", 3, 9⟩ rfl

/-- C8: the instrumented service agrees with `UserService.CreateUser`; a
repository create is issued only when validation passed and the existence
check returned false without error; and on every error return no create was
issued and the store is unchanged (which covers the invalid-input,
duplicate-email and existence-check-error returns). -/
theorem c8_create_only_after_checks (db : UsersTable) (now : Nat) (u : User) :
    ((UserService.CreateUserTr db now u).1.1 =
        (UserService.CreateUser db now u).1 ∧
      (UserService.CreateUserTr db now u).2 =
        (UserService.CreateUser db now u).2) ∧
    (∀ v, RepoCall.create v ∈ (UserService.CreateUserTr db now u).1.2 →
      u.email ≠ "" ∧
      UserRepository.ExistsByEmail db u.email = Except.ok false) ∧
    (∀ err, (UserService.CreateUserTr db now u).2 = Except.error err →
      (UserService.CreateUserTr db now u).1.1 = db ∧
      ∀ v, RepoCall.create v ∉ (UserService.CreateUserTr db now u).1.2) := by
  by_cases he : u.email = ""
  · simp [UserService.CreateUserTr, UserService.CreateUser, createUserWithPort,
      concretePort, UserService.validateUser, he]
  · by_cases hex : usersExistsByEmail db u.email = true
    · simp [UserService.CreateUserTr, UserService.CreateUser, createUserWithPort,
        concretePort, UserService.validateUser, he, UserRepository.ExistsByEmail,
        existsByEmailFromDriver, hex]
    · have hex2 : usersExistsByEmail db u.email = false :=
        eq_false_of_ne_true hex
      have hcr := create_ok_iff db now u hex2
      simp [UserService.CreateUserTr, UserService.CreateUser, createUserWithPort,
        concretePort, UserService.validateUser, he, UserRepository.ExistsByEmail,
        existsByEmailFromDriver, hex2, hcr]

/-- C8 witness: an empty-email request leaves the store unchanged and issues
no create call. -/
theorem c8_create_only_after_checks_witness :
    (UserService.CreateUserTr [] 1 ⟨"i", "", "p", 0, 0⟩).1.1 = [] ∧
    ∀ v, RepoCall.create v ∉ (UserService.CreateUserTr [] 1 ⟨"i", "", "p", 0, 0⟩).1.2 :=
  (c8_create_only_after_checks [] 1 ⟨"i", "", "p", 0, 0⟩).2.2
    GoError.svcInvalidInput rfl

/-- C1, as stated, is false on the repository-error arm: when the duplicate
surfaces as `ports.ErrDuplicateEmail` from the repository's `Create` (the
email exists in the create-time snapshot after passing the existence check
on an earlier snapshot), `CreateUser` returns the repository-level value —
not the service-level duplicate-email kind — and the create handler's switch
renders 500, not 409. -/
theorem c1_counterexample :
    (createUserWithPort (snapshotPort 7)
        (([] : UsersTable), [⟨"id0", "a@b", "p", 5, 5⟩])
        ⟨"id1", "a@b", "q", 3, 4⟩).2 =
      Except.error GoError.portsDuplicateEmail ∧
    GoError.portsDuplicateEmail ≠ GoError.svcDuplicateEmail ∧
    createUserErrStatus GoError.portsDuplicateEmail = 500 ∧
    (500 : Nat) ≠ 409 := by
  refine ⟨rfl, by decide, rfl, by decide⟩

/-- C1 (amended): a create request whose email exists at the time of the
service's existence check yields `services.ErrDuplicateEmail` and HTTP 409;
whereas when the duplicate instead surfaces as the repository's
`ports.ErrDuplicateEmail` from `Create`, the service returns that
repository-level error unchanged and the create handler renders 500. -/
theorem c1_duplicate_email_mapping (db : UsersTable) (now : Nat) (u : User)
    (he : u.email ≠ "") (hex : usersExistsByEmail db u.email = true) :
    (UserService.CreateUser db now u =
        (db, Except.error GoError.svcDuplicateEmail) ∧
      UserHandler.createUser db now u = (db, 409, none)) ∧
    (∀ (σ : Type) (port : UserRepositoryPort σ) (s s2 : σ) (v : User),
      v.email ≠ "" → port.existsByEmail s v.email = Except.ok false →
      port.create s v = (s2, Except.error GoError.portsDuplicateEmail) →
      (createUserWithPort port s v).2 =
        Except.error GoError.portsDuplicateEmail ∧
      createUserErrStatus GoError.portsDuplicateEmail = 500) := by
  constructor
  · have hsvc : UserService.CreateUser db now u =
        (db, Except.error GoError.svcDuplicateEmail) := by
      simp [UserService.CreateUser, createUserWithPort, concretePort,
        UserService.validateUser, he, UserRepository.ExistsByEmail,
        existsByEmailFromDriver, hex]
    exact ⟨hsvc, by simp [UserHandler.createUser, hsvc, createUserErrStatus]⟩
  · intro σ port s s2 v hv hexv hcrv
    constructor
    · simp [createUserWithPort, UserService.validateUser, hv, hexv, hcrv]
    · rfl

/-- C1 witness: the existence-check arm at a one-user store, and the
repository-error arm at the snapshot port exhibiting the same store. -/
theorem c1_duplicate_email_mapping_witness :
    UserService.CreateUser [⟨"id0", "a@b", "p", 5, 5⟩] 7 ⟨"id1", "a@b", "q", 3, 4⟩ =
      ([⟨"id0", "a@b", "p", 5, 5⟩], Except.error GoError.svcDuplicateEmail) ∧
    (createUserWithPort (snapshotPort 7)
        (([] : UsersTable), [⟨"id0", "a@b", "p", 5, 5⟩])
        ⟨"id1", "a@b", "q", 3, 4⟩).2 =
      Except.error GoError.portsDuplicateEmail := by
  have h := c1_duplicate_email_mapping [⟨"id0", "a@b", "p", 5, 5⟩] 7
    ⟨"id1", "a@b", "q", 3, 4⟩ (by decide) (by decide)
  exact ⟨h.1.1,
    (h.2 (UsersTable × UsersTable) (snapshotPort 7)
      (([] : UsersTable), [⟨"id0", "a@b", "p", 5, 5⟩])
      (([] : UsersTable), [⟨"id0", "a@b", "p", 5, 5⟩])
      ⟨"id1", "a@b", "q", 3, 4⟩ (by decide) rfl rfl).1⟩
